import Mathlib

/-!
# NetworkConfig (sdk/blinkup/NetworkConfig.js)

A shallow embedding of the `NetworkConfig` value object: its constructor
(`function NetworkConfig (params)`) and its single method
(`NetworkConfig.prototype.isComplete`), over a small model of the JavaScript
values and operators the two functions use (`typeof`, `===`, `!==`, `&&`,
`||`, `? :`, `new`, property reads).
-/

namespace Blinkup

/-! ## JavaScript values -/

/-- An object: its identity, and whether it is callable (a function). -/
structure ObjRef where
  ref : Nat
  callable : Bool
  deriving DecidableEq, Repr

/-- JavaScript values. A number is the bit pattern of its IEEE-754 double,
read modulo `2^64`; objects and symbols are opaque identities. -/
inductive JsVal where
  | undefined
  | null
  | bool (b : Bool)
  | number (bits : Nat)
  | bigint (i : Int)
  | string (s : String)
  | symbol (id : Nat)
  | object (o : ObjRef)
  deriving DecidableEq, Repr

/-- An abrupt completion: the value thrown. -/
structure JsError where
  thrown : JsVal
  deriving DecidableEq, Repr

namespace JsNum

/-- The double is a NaN: exponent bits all ones, fraction non-zero. -/
def isNaN (bits : Nat) : Bool :=
  let b := bits % 2 ^ 64
  (b / 2 ^ 52) % 2 ^ 11 == 2047 && b % 2 ^ 52 != 0

/-- The double is `+0` or `-0`: everything but the sign bit is zero. -/
def isZero (bits : Nat) : Bool :=
  (bits % 2 ^ 64) % 2 ^ 63 == 0

/-- The comparison `Number::equal`: NaN equals nothing, the two zeros are equal. -/
def equal (x y : Nat) : Bool :=
  if isNaN x || isNaN y then false
  else if isZero x && isZero y then true
  else x % 2 ^ 64 == y % 2 ^ 64

end JsNum

/-- The `typeof` operator. -/
def typeof : JsVal → String
  | .undefined => "undefined"
  | .null => "object"
  | .bool _ => "boolean"
  | .number _ => "number"
  | .bigint _ => "bigint"
  | .string _ => "string"
  | .symbol _ => "symbol"
  | .object o => if o.callable then "function" else "object"

/-- The abstract operation `ToBoolean`: the falsy values are `undefined`, `null`,
`false`, `+0`, `-0`, `NaN`, `0n` and the empty string. -/
def toBoolean : JsVal → Bool
  | .undefined => false
  | .null => false
  | .bool b => b
  | .number n => !(JsNum.isZero n || JsNum.isNaN n)
  | .bigint i => i != 0
  | .string s => s != ""
  | .symbol _ => true
  | .object _ => true

/-- The operator `===` (no conversion: values of different types are unequal). -/
def strictEquals : JsVal → JsVal → Bool
  | .undefined, .undefined => true
  | .null, .null => true
  | .bool a, .bool b => a == b
  | .number a, .number b => JsNum.equal a b
  | .bigint a, .bigint b => a == b
  | .string a, .string b => a == b
  | .symbol a, .symbol b => a == b
  | .object a, .object b => a.ref == b.ref
  | _, _ => false

/-- The operator `!==`. -/
def strictNotEquals (a b : JsVal) : Bool := !strictEquals a b

/-- The operator `a && b` on already evaluated operands (the operands used in
this file have no effects, so short-circuiting only selects the value). -/
def jsAnd (a b : JsVal) : JsVal := if toBoolean a then b else a

/-- The operator `a || b` on already evaluated operands. -/
def jsOr (a b : JsVal) : JsVal := if toBoolean a then a else b

/-- A plain record (an object literal such as `{ssid: 'myWifi'}`): its own data
properties, in order. -/
abbrev JsRecord := List (String × JsVal)

/-- A property read `params.key`: the value of the property, `undefined` when
the record has no such property. -/
def getProp (params : JsRecord) (key : String) : JsVal :=
  (params.lookup key).getD .undefined

/-! ## The collaborators

`StaticAddressing` and `NetworkProxy` are required from sibling modules; the
constructor only calls them. A collaborator is taken as a parameter: what
`new K(arg)` evaluates to, either the object produced or the error raised. -/

/-- What `new K(arg)` does for a collaborator class `K`. -/
abbrev Collaborator := JsVal → Except JsError ObjRef

/-- The expression `new K(arg)`: always an object when it completes normally. -/
def newObject (K : Collaborator) (arg : JsVal) : Except JsError JsVal :=
  (K arg).map JsVal.object

/-- A collaborator that raises on no argument. -/
def Collaborator.NeverRaises (K : Collaborator) : Prop :=
  ∀ arg, ∃ o, K arg = .ok o

/-! ## NetworkConfig -/

/-- The instance state of a `NetworkConfig`: its four fields. The fields are
ordinary writable properties, so each may hold any value. -/
structure NetworkConfig where
  ssid : JsVal
  password : JsVal
  addressing : JsVal
  proxy : JsVal
  deriving DecidableEq, Repr

/-- The constructor `function NetworkConfig (params)`, with the two required
classes as parameters. The four assignments run in source order, so an error
raised by `StaticAddressing` prevents the call to `NetworkProxy`. -/
def NetworkConfig.new (StaticAddressing NetworkProxy : Collaborator)
    (params : JsRecord) : Except JsError NetworkConfig := do
  let ssid := jsOr (getProp params "ssid") (.string "")
  let password := jsOr (getProp params "password") (.string "")
  let addressing ←
    if toBoolean (getProp params "addressing") then
      newObject StaticAddressing (getProp params "addressing")
    else pure .null
  let proxy ←
    if toBoolean (getProp params "proxy") then
      newObject NetworkProxy (getProp params "proxy")
    else pure .null
  pure { ssid := ssid, password := password, addressing := addressing, proxy := proxy }

/-- The value of the `return` expression of `NetworkConfig.prototype.isComplete`:
`typeof this.ssid === 'string' && (this.ssid !== '' || this.password === '')`. -/
def NetworkConfig.isComplete (this : NetworkConfig) : JsVal :=
  jsAnd (.bool (strictEquals (.string (typeof this.ssid)) (.string "string")))
    (jsOr (.bool (strictNotEquals this.ssid (.string "")))
      (.bool (strictEquals this.password (.string ""))))

/-- A call `this.isComplete()` as a computation over the receiver: the state is
the instance, the outcome is the returned value or an error. -/
def NetworkConfig.isCompleteCall : StateT NetworkConfig (Except JsError) JsVal := do
  let this ← get
  return this.isComplete

/-- The predicate of `isComplete` without its type test, as the description
simplifies it: `ssid` is non-empty or `password` is the empty string. -/
def NetworkConfig.isCompleteSimplified (this : NetworkConfig) : JsVal :=
  jsOr (.bool (strictNotEquals this.ssid (.string "")))
    (.bool (strictEquals this.password (.string "")))

/-- The value is a string. -/
def JsVal.IsString (v : JsVal) : Prop := ∃ s, v = .string s

instance (v : JsVal) : Decidable v.IsString :=
  match v with
  | .string s => isTrue ⟨s, rfl⟩
  | .undefined => isFalse (by rintro ⟨s, h⟩; cases h)
  | .null => isFalse (by rintro ⟨s, h⟩; cases h)
  | .bool _ => isFalse (by rintro ⟨s, h⟩; cases h)
  | .number _ => isFalse (by rintro ⟨s, h⟩; cases h)
  | .bigint _ => isFalse (by rintro ⟨s, h⟩; cases h)
  | .symbol _ => isFalse (by rintro ⟨s, h⟩; cases h)
  | .object _ => isFalse (by rintro ⟨s, h⟩; cases h)

/-- Outcomes of a computation can be compared when errors and results can. -/
instance decEqOutcome {ε α : Type} [DecidableEq ε] [DecidableEq α] :
    DecidableEq (Except ε α) := fun a b =>
  match a, b with
  | .ok x, .ok y => if h : x = y then isTrue (by rw [h]) else isFalse (by intro e; cases e; exact h rfl)
  | .error x, .error y =>
    if h : x = y then isTrue (by rw [h]) else isFalse (by intro e; cases e; exact h rfl)
  | .ok _, .error _ => isFalse (by intro e; cases e)
  | .error _, .ok _ => isFalse (by intro e; cases e)

/-! ## Sample collaborators and records used at concrete inputs -/

/-- A collaborator that produces object number `100` for every argument. -/
def sampleStaticAddressing : Collaborator := fun _ => .ok ⟨100, false⟩

/-- A collaborator that produces object number `200` for every argument. -/
def sampleNetworkProxy : Collaborator := fun _ => .ok ⟨200, false⟩

/-- The bit pattern of the double `1.0` (`0x3FF0000000000000`). -/
def doubleOne : Nat := 4607182418800017408

/-- The record `{password: 'secret'}`. -/
def passwordOnly : JsRecord := [("password", .string "secret")]

/-- The record `{ssid: 'myWifi'}`. -/
def ssidOnly : JsRecord := [("ssid", .string "myWifi")]

/-- The record `{ssid: 'myWifi', password: 'secret'}`. -/
def ssidAndPassword : JsRecord := [("ssid", .string "myWifi"), ("password", .string "secret")]

/-- The record `{addressing: addressing, proxy: proxy}` for two objects
numbered `1` and `2`. -/
def addressingAndProxy : JsRecord :=
  [("addressing", .object ⟨1, false⟩), ("proxy", .object ⟨2, false⟩)]

/-- The record `{ssid: 1}`: a number where a string is expected. -/
def numericSsid : JsRecord := [("ssid", .number doubleOne)]

/-- The record `{addressing: addressing}` for an object numbered `1`: static
addressing supplied without an `ssid` or a `password`. -/
def addressingOnly : JsRecord := [("addressing", .object ⟨1, false⟩)]

/-! ## Basic facts about the operators -/

theorem typeof_eq_string_iff (v : JsVal) : typeof v = "string" ↔ v.IsString := by
  cases v <;> simp [typeof, JsVal.IsString]
  split <;> simp

theorem strictEquals_string_right (v : JsVal) (s : String) :
    strictEquals v (.string s) = true ↔ v = .string s := by
  cases v <;> simp [strictEquals]

theorem toBoolean_string (s : String) : toBoolean (.string s) = true ↔ s ≠ "" := by
  simp [toBoolean]

theorem getProp_of_lookup_none (params : JsRecord) (key : String)
    (h : params.lookup key = none) : getProp params key = .undefined := by
  simp [getProp, h]

/-- The constructor completes normally exactly when each collaborator it calls
does, and then the four fields are the four right-hand sides. -/
theorem new_eq_ok_iff (SA NP : Collaborator) (params : JsRecord) (c : NetworkConfig) :
    NetworkConfig.new SA NP params = .ok c ↔
      c.ssid = jsOr (getProp params "ssid") (.string "") ∧
      c.password = jsOr (getProp params "password") (.string "") ∧
      (if toBoolean (getProp params "addressing") then
          newObject SA (getProp params "addressing") = .ok c.addressing
        else c.addressing = .null) ∧
      (if toBoolean (getProp params "proxy") then
          newObject NP (getProp params "proxy") = .ok c.proxy
        else c.proxy = .null) := by
  obtain ⟨ssid, password, addressing, proxy⟩ := c
  unfold NetworkConfig.new
  by_cases ha : toBoolean (getProp params "addressing") = true <;>
    by_cases hp : toBoolean (getProp params "proxy") = true <;>
    simp only [ha, hp, if_true, if_false, Bool.false_eq_true] <;>
    (try cases hA : newObject SA (getProp params "addressing")) <;>
    (try cases hP : newObject NP (getProp params "proxy")) <;>
    simp [bind, Except.bind, pure, Except.pure] <;>
    tauto

theorem newObject_eq_ok_iff (K : Collaborator) (arg v : JsVal) :
    newObject K arg = .ok v ↔ ∃ o, K arg = .ok o ∧ v = .object o := by
  unfold newObject
  cases K arg <;> simp [Except.map, eq_comm]

theorem isComplete_eq_bool (c : NetworkConfig) :
    c.isComplete = .bool (decide (c.ssid.IsString) &&
      (!decide (c.ssid = .string "") || decide (c.password = .string ""))) := by
  obtain ⟨ssid, password, addressing, proxy⟩ := c
  cases ssid <;> cases password <;>
    simp [NetworkConfig.isComplete, jsAnd, jsOr, toBoolean, typeof, strictEquals,
      strictNotEquals, JsVal.IsString] <;>
    (try split) <;> simp_all [beq_eq_decide]

/-! ## C1 -/

/-- C1: for every NetworkConfig state, whatever values its fields hold,
`isComplete()` returns a boolean, and it returns `true` if and only if `ssid`
is a string and (`ssid` is not the empty string or `password` is the empty
string). -/
theorem isComplete_true_iff (c : NetworkConfig) :
    (∃ b, c.isComplete = .bool b) ∧
    (c.isComplete = .bool true ↔
      c.ssid.IsString ∧ (c.ssid ≠ .string "" ∨ c.password = .string "")) := by
  rw [isComplete_eq_bool]
  refine ⟨⟨_, rfl⟩, ?_⟩
  simp

theorem jsOr_string_default (v : JsVal) :
    (toBoolean v = true → jsOr v (.string "") = v) ∧
    (toBoolean v = false → jsOr v (.string "") = .string "") := by
  unfold jsOr
  constructor <;> intro h <;> simp [h]

theorem jsOr_default_of_undefined_or_string (v : JsVal)
    (h : v = .undefined ∨ v.IsString) :
    (v = .undefined ∨ v = .string "") ∧ jsOr v (.string "") = .string "" ∨
    (∃ s, v = .string s ∧ s ≠ "") ∧ jsOr v (.string "") = v := by
  rcases h with h | ⟨s, h⟩
  · subst h; left; simp [jsOr, toBoolean]
  · subst h
    by_cases hs : s = ""
    · subst hs; left; simp [jsOr, toBoolean]
    · right; exact ⟨⟨s, rfl, hs⟩, by simp [jsOr, toBoolean, hs]⟩

/-! ## C2 -/

/-- C2: truth table over constructed configurations. For a params record in
which `ssid` and `password` are each absent (`undefined`) or a string,
`new NetworkConfig(params).isComplete()` is `false` exactly when `ssid` is not
set (absent or empty) and `password` is set (a non-empty string), and is
`true` in the three other cases: neither set, `ssid` only, both set. -/
theorem isComplete_truth_table (SA NP : Collaborator) (params : JsRecord)
    (c : NetworkConfig)
    (hs : getProp params "ssid" = .undefined ∨ (getProp params "ssid").IsString)
    (hp : getProp params "password" = .undefined ∨ (getProp params "password").IsString)
    (h : NetworkConfig.new SA NP params = .ok c) :
    (c.isComplete = .bool false ↔
      (getProp params "ssid" = .undefined ∨ getProp params "ssid" = .string "") ∧
      (∃ s, getProp params "password" = .string s ∧ s ≠ "")) ∧
    ((getProp params "ssid" = .undefined ∨ getProp params "ssid" = .string "") →
      (getProp params "password" = .undefined ∨ getProp params "password" = .string "") →
      c.isComplete = .bool true) ∧
    ((∃ s, getProp params "ssid" = .string s ∧ s ≠ "") →
      (getProp params "password" = .undefined ∨ getProp params "password" = .string "") →
      c.isComplete = .bool true) ∧
    ((∃ s, getProp params "ssid" = .string s ∧ s ≠ "") →
      (∃ s, getProp params "password" = .string s ∧ s ≠ "") →
      c.isComplete = .bool true) := by
  obtain ⟨h1, h2, -, -⟩ := (new_eq_ok_iff SA NP params c).1 h
  rw [isComplete_eq_bool, h1, h2]
  rcases jsOr_default_of_undefined_or_string _ hs with ⟨hs1, hs2⟩ | ⟨⟨s, hs1, hs0⟩, hs2⟩ <;>
    rcases jsOr_default_of_undefined_or_string _ hp with ⟨hp1, hp2⟩ | ⟨⟨t, hp1, hp0⟩, hp2⟩ <;>
    rw [hs2, hp2]
  · rcases hs1 with hs1 | hs1 <;> rcases hp1 with hp1 | hp1 <;>
      simp [hs1, hp1, JsVal.IsString]
  · rcases hs1 with hs1 | hs1 <;> simp [hs1, hp1, hp0, JsVal.IsString]
  · rcases hp1 with hp1 | hp1 <;> simp [hs1, hp1, hs0, JsVal.IsString]
  · simp [hs1, hp1, hs0, hp0, JsVal.IsString]

/-- The four rows of the table at the documented records: `{password: 'secret'}`
gives `false`; `{}`, `{ssid: 'myWifi'}` and `{ssid: 'myWifi', password: 'secret'}`
give `true`. -/
theorem isComplete_truth_table_witness :
    (NetworkConfig.new sampleStaticAddressing sampleNetworkProxy passwordOnly
        = .ok ⟨.string "", .string "secret", .null, .null⟩ ∧
      NetworkConfig.isComplete ⟨.string "", .string "secret", .null, .null⟩ = .bool false) ∧
    (NetworkConfig.new sampleStaticAddressing sampleNetworkProxy []
        = .ok ⟨.string "", .string "", .null, .null⟩ ∧
      NetworkConfig.isComplete ⟨.string "", .string "", .null, .null⟩ = .bool true) ∧
    (NetworkConfig.new sampleStaticAddressing sampleNetworkProxy ssidOnly
        = .ok ⟨.string "myWifi", .string "", .null, .null⟩ ∧
      NetworkConfig.isComplete ⟨.string "myWifi", .string "", .null, .null⟩ = .bool true) ∧
    (NetworkConfig.new sampleStaticAddressing sampleNetworkProxy ssidAndPassword
        = .ok ⟨.string "myWifi", .string "secret", .null, .null⟩ ∧
      NetworkConfig.isComplete ⟨.string "myWifi", .string "secret", .null, .null⟩
        = .bool true) :=
  ⟨⟨by decide,
    (isComplete_truth_table sampleStaticAddressing sampleNetworkProxy passwordOnly _
      (by decide) (by decide) (by decide)).1.2
      ⟨by decide, "secret", by decide, by decide⟩⟩,
   ⟨by decide,
    (isComplete_truth_table sampleStaticAddressing sampleNetworkProxy [] _
      (by decide) (by decide) (by decide)).2.1 (by decide) (by decide)⟩,
   ⟨by decide,
    (isComplete_truth_table sampleStaticAddressing sampleNetworkProxy ssidOnly _
      (by decide) (by decide) (by decide)).2.2.1
      ⟨"myWifi", by decide, by decide⟩ (by decide)⟩,
   ⟨by decide,
    (isComplete_truth_table sampleStaticAddressing sampleNetworkProxy ssidAndPassword _
      (by decide) (by decide) (by decide)).2.2.2
      ⟨"myWifi", by decide, by decide⟩ ⟨"secret", by decide, by decide⟩⟩⟩

theorem jsOr_string_default_ne (v : JsVal) :
    jsOr v (.string "") ≠ .undefined ∧ jsOr v (.string "") ≠ .null := by
  cases v <;> simp [jsOr, toBoolean] <;> split <;> simp

theorem jsOr_string_default_isString (v : JsVal) :
    (jsOr v (.string "")).IsString ↔ toBoolean v = false ∨ v.IsString := by
  by_cases h : toBoolean v = true
  · rw [(jsOr_string_default v).1 h]; simp [h]
  · have h0 : toBoolean v = false := by simpa using h
    rw [(jsOr_string_default v).2 h0]; simp [h0, JsVal.IsString]

theorem fields_string_of_param (SA NP : Collaborator) (params : JsRecord)
    (c : NetworkConfig) (h : NetworkConfig.new SA NP params = .ok c) :
    (toBoolean (getProp params "ssid") = false ∨ (getProp params "ssid").IsString →
      c.ssid.IsString) ∧
    (toBoolean (getProp params "password") = false ∨
      (getProp params "password").IsString → c.password.IsString) := by
  obtain ⟨h1, h2, -, -⟩ := (new_eq_ok_iff SA NP params c).1 h
  rw [h1, h2]
  exact ⟨(jsOr_string_default_isString _).2, (jsOr_string_default_isString _).2⟩

/-! ## C3 -/

/-- C3, as stated, fails: constructing from the record `{ssid: 1}`, whose
`ssid` is a number, completes normally and leaves the number `1` in the `ssid`
field, which is not a string. -/
theorem ssid_not_string_counterexample :
    NetworkConfig.new sampleStaticAddressing sampleNetworkProxy numericSsid
      = .ok ⟨.number doubleOne, .string "", .null, .null⟩ ∧
    ¬ (JsVal.number doubleOne).IsString ∧
    typeof (JsVal.number doubleOne) = "number" := by
  decide

/-- C3, amended: for every params record, after construction `ssid` and
`password` are never `undefined` or `null`; the `ssid` field is a string
exactly when `params.ssid` is falsy (absent included) or a string, and likewise
`password`. In particular both are strings when both parameters are absent,
falsy or strings. -/
theorem fields_after_construction (SA NP : Collaborator) (params : JsRecord)
    (c : NetworkConfig) (h : NetworkConfig.new SA NP params = .ok c) :
    (c.ssid ≠ .undefined ∧ c.ssid ≠ .null ∧ c.password ≠ .undefined ∧ c.password ≠ .null) ∧
    (c.ssid.IsString ↔
      toBoolean (getProp params "ssid") = false ∨ (getProp params "ssid").IsString) ∧
    (c.password.IsString ↔
      toBoolean (getProp params "password") = false ∨
        (getProp params "password").IsString) := by
  obtain ⟨h1, h2, -, -⟩ := (new_eq_ok_iff SA NP params c).1 h
  rw [h1, h2]
  exact ⟨⟨(jsOr_string_default_ne _).1, (jsOr_string_default_ne _).2,
    (jsOr_string_default_ne _).1, (jsOr_string_default_ne _).2⟩,
    jsOr_string_default_isString _, jsOr_string_default_isString _⟩

/-- The amended C3 at `{ssid: 'myWifi', password: 'secret'}`: both fields are
strings. -/
theorem fields_after_construction_witness :
    NetworkConfig.new sampleStaticAddressing sampleNetworkProxy ssidAndPassword
      = .ok ⟨.string "myWifi", .string "secret", .null, .null⟩ ∧
    (JsVal.string "myWifi").IsString ∧ (JsVal.string "secret").IsString :=
  have h := fields_after_construction sampleStaticAddressing sampleNetworkProxy
    ssidAndPassword ⟨.string "myWifi", .string "secret", .null, .null⟩ (by decide)
  ⟨by decide, h.2.1.2 (Or.inr (by decide)), h.2.2.2 (Or.inr (by decide))⟩

/-! ## C4 -/

/-- C4: for every params record, the constructed `ssid` is `params.ssid`
verbatim when that is truthy and the empty string when it is omitted or falsy,
and the same for `password`; the constructed `ssid` is the same for any two
records (and any collaborators) that agree on `params.ssid`, and likewise
`password`, so neither depends on the other field, on `addressing` or on
`proxy`. -/
theorem ssid_password_stored (SA NP : Collaborator) (params : JsRecord)
    (c : NetworkConfig) (h : NetworkConfig.new SA NP params = .ok c) :
    ((toBoolean (getProp params "ssid") = true → c.ssid = getProp params "ssid") ∧
      (toBoolean (getProp params "ssid") = false → c.ssid = .string "") ∧
      (params.lookup "ssid" = none → c.ssid = .string "")) ∧
    ((toBoolean (getProp params "password") = true →
        c.password = getProp params "password") ∧
      (toBoolean (getProp params "password") = false → c.password = .string "") ∧
      (params.lookup "password" = none → c.password = .string "")) ∧
    (∀ (SA2 NP2 : Collaborator) (params2 : JsRecord) (c2 : NetworkConfig),
      NetworkConfig.new SA2 NP2 params2 = .ok c2 →
      (getProp params2 "ssid" = getProp params "ssid" → c2.ssid = c.ssid) ∧
      (getProp params2 "password" = getProp params "password" →
        c2.password = c.password)) := by
  obtain ⟨h1, h2, -, -⟩ := (new_eq_ok_iff SA NP params c).1 h
  refine ⟨⟨?_, ?_, ?_⟩, ⟨?_, ?_, ?_⟩, ?_⟩
  · intro ht; rw [h1]; exact (jsOr_string_default _).1 ht
  · intro hf; rw [h1]; exact (jsOr_string_default _).2 hf
  · intro hn; rw [h1, getProp_of_lookup_none _ _ hn]; rfl
  · intro ht; rw [h2]; exact (jsOr_string_default _).1 ht
  · intro hf; rw [h2]; exact (jsOr_string_default _).2 hf
  · intro hn; rw [h2, getProp_of_lookup_none _ _ hn]; rfl
  · intro SA2 NP2 params2 c2 hc2
    obtain ⟨k1, k2, -, -⟩ := (new_eq_ok_iff SA2 NP2 params2 c2).1 hc2
    exact ⟨fun e => by rw [k1, h1, e], fun e => by rw [k2, h2, e]⟩

/-- C4 at `{ssid: 'myWifi'}`: the `ssid` is stored verbatim and the omitted
`password` becomes the empty string. -/
theorem ssid_password_stored_witness :
    NetworkConfig.new sampleStaticAddressing sampleNetworkProxy ssidOnly
      = .ok ⟨.string "myWifi", .string "", .null, .null⟩ ∧
    (⟨.string "myWifi", .string "", .null, .null⟩ : NetworkConfig).ssid
      = getProp ssidOnly "ssid" ∧
    (⟨.string "myWifi", .string "", .null, .null⟩ : NetworkConfig).password
      = .string "" :=
  have h := ssid_password_stored sampleStaticAddressing sampleNetworkProxy
    ssidOnly ⟨.string "myWifi", .string "", .null, .null⟩ (by decide)
  ⟨by decide, h.1.1 (by decide), h.2.1.2.2 (by decide)⟩

theorem sampleStaticAddressing_neverRaises : sampleStaticAddressing.NeverRaises :=
  fun _ => ⟨_, rfl⟩

theorem sampleNetworkProxy_neverRaises : sampleNetworkProxy.NeverRaises :=
  fun _ => ⟨_, rfl⟩

theorem isCompleteCall_run (c : NetworkConfig) :
    NetworkConfig.isCompleteCall.run c = .ok (c.isComplete, c) := rfl

/-! ## C5 -/

/-- C5: the core never throws. With collaborator constructors that do not
raise, constructing a NetworkConfig from any record (any of the four fields
present or missing) completes normally with an instance, and a call of
`isComplete()` on any NetworkConfig state completes normally with a boolean. -/
theorem never_throws (SA NP : Collaborator) (hSA : SA.NeverRaises) (hNP : NP.NeverRaises)
    (params : JsRecord) (c : NetworkConfig) :
    (∃ made, NetworkConfig.new SA NP params = .ok made) ∧
    (∃ b after, NetworkConfig.isCompleteCall.run c = .ok (.bool b, after)) := by
  constructor
  · have hA : ∀ arg, ∃ v, newObject SA arg = .ok v := fun arg => by
      obtain ⟨o, ho⟩ := hSA arg
      exact ⟨.object o, (newObject_eq_ok_iff SA arg _).2 ⟨o, ho, rfl⟩⟩
    have hP : ∀ arg, ∃ v, newObject NP arg = .ok v := fun arg => by
      obtain ⟨o, ho⟩ := hNP arg
      exact ⟨.object o, (newObject_eq_ok_iff NP arg _).2 ⟨o, ho, rfl⟩⟩
    obtain ⟨a, ha⟩ := hA (getProp params "addressing")
    obtain ⟨q, hq⟩ := hP (getProp params "proxy")
    refine ⟨⟨jsOr (getProp params "ssid") (.string ""),
      jsOr (getProp params "password") (.string ""),
      if toBoolean (getProp params "addressing") then a else .null,
      if toBoolean (getProp params "proxy") then q else .null⟩, ?_⟩
    rw [new_eq_ok_iff]
    refine ⟨rfl, rfl, ?_, ?_⟩
    · split <;> simp_all
    · split <;> simp_all
  · rw [isCompleteCall_run, isComplete_eq_bool]
    exact ⟨_, _, rfl⟩

/-- C5 at `{addressing: addressing, proxy: proxy}` with the sample
collaborators, and at the state left by `{password: 'secret'}`. -/
theorem never_throws_witness :
    sampleStaticAddressing.NeverRaises ∧ sampleNetworkProxy.NeverRaises ∧
    (∃ made, NetworkConfig.new sampleStaticAddressing sampleNetworkProxy
      addressingAndProxy = .ok made) ∧
    (∃ b after, NetworkConfig.isCompleteCall.run
      ⟨.string "", .string "secret", .null, .null⟩ = .ok (.bool b, after)) :=
  ⟨sampleStaticAddressing_neverRaises, sampleNetworkProxy_neverRaises,
    never_throws sampleStaticAddressing sampleNetworkProxy
      sampleStaticAddressing_neverRaises sampleNetworkProxy_neverRaises
      addressingAndProxy ⟨.string "", .string "secret", .null, .null⟩⟩

/-! ## C6 -/

/-- C6: for every params record in which `addressing` is absent or falsy the
constructed `addressing` field is `null`, and for every params record in which
`proxy` is absent or falsy the constructed `proxy` field is `null`; each is
decided from its own parameter only. -/
theorem absent_addressing_proxy_null (SA NP : Collaborator) (params : JsRecord)
    (c : NetworkConfig) (h : NetworkConfig.new SA NP params = .ok c) :
    ((toBoolean (getProp params "addressing") = false → c.addressing = .null) ∧
      (params.lookup "addressing" = none → c.addressing = .null)) ∧
    ((toBoolean (getProp params "proxy") = false → c.proxy = .null) ∧
      (params.lookup "proxy" = none → c.proxy = .null)) := by
  obtain ⟨-, -, h3, h4⟩ := (new_eq_ok_iff SA NP params c).1 h
  have ha : toBoolean (getProp params "addressing") = false → c.addressing = .null := by
    intro hf; simpa [hf] using h3
  have hp : toBoolean (getProp params "proxy") = false → c.proxy = .null := by
    intro hf; simpa [hf] using h4
  refine ⟨⟨ha, fun hn => ha ?_⟩, ⟨hp, fun hn => hp ?_⟩⟩
  · rw [getProp_of_lookup_none _ _ hn]; rfl
  · rw [getProp_of_lookup_none _ _ hn]; rfl

/-- C6 at the empty record `{}`: both `addressing` and `proxy` are `null`. -/
theorem absent_addressing_proxy_null_witness :
    NetworkConfig.new sampleStaticAddressing sampleNetworkProxy []
      = .ok ⟨.string "", .string "", .null, .null⟩ ∧
    (⟨.string "", .string "", .null, .null⟩ : NetworkConfig).addressing = .null ∧
    (⟨.string "", .string "", .null, .null⟩ : NetworkConfig).proxy = .null :=
  have h := absent_addressing_proxy_null sampleStaticAddressing sampleNetworkProxy
    [] ⟨.string "", .string "", .null, .null⟩ (by decide)
  ⟨by decide, h.1.2 (by decide), h.2.2 (by decide)⟩

/-! ## C7 -/

/-- C7: for every params record in which `addressing` is present (truthy), the
constructed `addressing` field is exactly what `new StaticAddressing(params.addressing)`
produced, an object and so not `null`, and it is not the raw argument whenever
the constructor produced an object other than its argument; likewise `proxy`
with `new NetworkProxy(params.proxy)`. -/
theorem present_addressing_proxy_wrapped (SA NP : Collaborator) (params : JsRecord)
    (c : NetworkConfig) (h : NetworkConfig.new SA NP params = .ok c) :
    (toBoolean (getProp params "addressing") = true →
      (∃ o, SA (getProp params "addressing") = .ok o ∧ c.addressing = .object o ∧
        (getProp params "addressing" ≠ .object o →
          c.addressing ≠ getProp params "addressing")) ∧
      c.addressing ≠ .null) ∧
    (toBoolean (getProp params "proxy") = true →
      (∃ o, NP (getProp params "proxy") = .ok o ∧ c.proxy = .object o ∧
        (getProp params "proxy" ≠ .object o → c.proxy ≠ getProp params "proxy")) ∧
      c.proxy ≠ .null) := by
  obtain ⟨-, -, h3, h4⟩ := (new_eq_ok_iff SA NP params c).1 h
  constructor
  · intro ht
    rw [if_pos ht, newObject_eq_ok_iff] at h3
    obtain ⟨o, ho, hc⟩ := h3
    exact ⟨⟨o, ho, hc, fun hne e => hne (e ▸ hc)⟩, by rw [hc]; simp⟩
  · intro ht
    rw [if_pos ht, newObject_eq_ok_iff] at h4
    obtain ⟨o, ho, hc⟩ := h4
    exact ⟨⟨o, ho, hc, fun hne e => hne (e ▸ hc)⟩, by rw [hc]; simp⟩

/-- C7 at `{addressing: addressing, proxy: proxy}` (objects `1` and `2`) with
the sample collaborators: the fields hold the produced objects `100` and `200`. -/
theorem present_addressing_proxy_wrapped_witness :
    NetworkConfig.new sampleStaticAddressing sampleNetworkProxy addressingAndProxy
      = .ok ⟨.string "", .string "", .object ⟨100, false⟩, .object ⟨200, false⟩⟩ ∧
    JsVal.object ⟨100, false⟩ ≠ .null ∧ JsVal.object ⟨200, false⟩ ≠ .null :=
  have h := present_addressing_proxy_wrapped sampleStaticAddressing sampleNetworkProxy
    addressingAndProxy
    ⟨.string "", .string "", .object ⟨100, false⟩, .object ⟨200, false⟩⟩ (by decide)
  ⟨by decide, (h.1 (by decide)).2, (h.2 (by decide)).2⟩

/-! ## C8 -/

/-- C8: Ethernet configurations are complete. For every params record that has
neither `ssid` nor `password` (each read gives `undefined`, as it does when the
property is missing), whatever `addressing` and `proxy` are,
`new NetworkConfig(params).isComplete()` is `true`. -/
theorem ethernet_isComplete (SA NP : Collaborator) (params : JsRecord)
    (c : NetworkConfig)
    (hs : getProp params "ssid" = .undefined)
    (hp : getProp params "password" = .undefined)
    (h : NetworkConfig.new SA NP params = .ok c) :
    c.isComplete = .bool true ∧
    (params.lookup "ssid" = none → params.lookup "password" = none →
      c.ssid = .string "" ∧ c.password = .string "") := by
  obtain ⟨h1, h2, -, -⟩ := (new_eq_ok_iff SA NP params c).1 h
  rw [hs] at h1
  rw [hp] at h2
  have e1 : c.ssid = .string "" := h1
  have e2 : c.password = .string "" := h2
  refine ⟨?_, fun _ _ => ⟨e1, e2⟩⟩
  rw [isComplete_eq_bool, e1, e2]
  simp [JsVal.IsString]

/-- C8 at the two documented Ethernet records: `{}` and
`{addressing: addressing, proxy: proxy}`. -/
theorem ethernet_isComplete_witness :
    (NetworkConfig.new sampleStaticAddressing sampleNetworkProxy []
        = .ok ⟨.string "", .string "", .null, .null⟩ ∧
      NetworkConfig.isComplete ⟨.string "", .string "", .null, .null⟩ = .bool true) ∧
    (NetworkConfig.new sampleStaticAddressing sampleNetworkProxy addressingAndProxy
        = .ok ⟨.string "", .string "", .object ⟨100, false⟩, .object ⟨200, false⟩⟩ ∧
      NetworkConfig.isComplete
        ⟨.string "", .string "", .object ⟨100, false⟩, .object ⟨200, false⟩⟩
        = .bool true) :=
  ⟨⟨by decide,
    (ethernet_isComplete sampleStaticAddressing sampleNetworkProxy [] _
      (by decide) (by decide) (by decide)).1⟩,
   ⟨by decide,
    (ethernet_isComplete sampleStaticAddressing sampleNetworkProxy addressingAndProxy _
      (by decide) (by decide) (by decide)).1⟩⟩

/-! ## C9 -/

/-- C9: in correct usage the type test of `isComplete` is redundant. For every
NetworkConfig constructed from a params record whose `ssid` is absent
(`undefined`) or a string, `typeof this.ssid === 'string'` is `true`, and
`isComplete()` returns the same value as the simplified predicate (`ssid` is
non-empty or `password` is the empty string) without the type test. -/
theorem isComplete_eq_simplified (SA NP : Collaborator) (params : JsRecord)
    (c : NetworkConfig)
    (hs : getProp params "ssid" = .undefined ∨ (getProp params "ssid").IsString)
    (h : NetworkConfig.new SA NP params = .ok c) :
    strictEquals (.string (typeof c.ssid)) (.string "string") = true ∧
    c.isComplete = c.isCompleteSimplified := by
  have hstr : c.ssid.IsString :=
    (fields_string_of_param SA NP params c h).1 (by
      rcases hs with hs | hs
      · left; rw [hs]; rfl
      · right; exact hs)
  have ht : strictEquals (.string (typeof c.ssid)) (.string "string") = true := by
    rw [strictEquals_string_right, (typeof_eq_string_iff _).2 hstr]
  refine ⟨ht, ?_⟩
  unfold NetworkConfig.isComplete NetworkConfig.isCompleteSimplified
  rw [ht]
  rfl

/-- C9 at `{ssid: 'myWifi', password: 'secret'}`. -/
theorem isComplete_eq_simplified_witness :
    NetworkConfig.new sampleStaticAddressing sampleNetworkProxy ssidAndPassword
      = .ok ⟨.string "myWifi", .string "secret", .null, .null⟩ ∧
    strictEquals (.string (typeof (JsVal.string "myWifi"))) (.string "string") = true ∧
    NetworkConfig.isComplete ⟨.string "myWifi", .string "secret", .null, .null⟩
      = NetworkConfig.isCompleteSimplified
          ⟨.string "myWifi", .string "secret", .null, .null⟩ :=
  ⟨by decide,
    isComplete_eq_simplified sampleStaticAddressing sampleNetworkProxy ssidAndPassword
      ⟨.string "myWifi", .string "secret", .null, .null⟩ (by decide) (by decide)⟩

/-! ## C10 -/

/-- C10: `isComplete()` has no side effects. On every NetworkConfig state the
call completes normally and leaves the state, hence each of the four fields
`ssid`, `password`, `addressing` and `proxy`, as it was; and two calls in
sequence on the same state return the same boolean, the state still
unchanged. -/
theorem isComplete_no_side_effects (c : NetworkConfig) :
    ∃ (b : Bool) (after : NetworkConfig),
      NetworkConfig.isCompleteCall.run c = .ok (.bool b, after) ∧
      after.ssid = c.ssid ∧ after.password = c.password ∧
      after.addressing = c.addressing ∧ after.proxy = c.proxy ∧
      NetworkConfig.isCompleteCall.run after = .ok (.bool b, after) ∧
      (do let first ← NetworkConfig.isCompleteCall
          let second ← NetworkConfig.isCompleteCall
          pure (first, second) : StateT NetworkConfig (Except JsError) (JsVal × JsVal)).run c
        = .ok ((.bool b, .bool b), c) := by
  refine ⟨decide (c.ssid.IsString) &&
      (!decide (c.ssid = .string "") || decide (c.password = .string "")), c,
    ?_, rfl, rfl, rfl, rfl, ?_, ?_⟩
  · rw [isCompleteCall_run, isComplete_eq_bool]
  · rw [isCompleteCall_run, isComplete_eq_bool]
  · have e : (do let first ← NetworkConfig.isCompleteCall
                 let second ← NetworkConfig.isCompleteCall
                 pure (first, second) :
               StateT NetworkConfig (Except JsError) (JsVal × JsVal)).run c
            = .ok ((c.isComplete, c.isComplete), c) := rfl
    rw [e, isComplete_eq_bool]

/-! ## C11 -/

/-- C11: `isComplete()` does not depend on `addressing` or `proxy`. Two
NetworkConfig states with equal `ssid` and equal `password` get the same
result from `isComplete()`, whatever their `addressing` and `proxy` fields
hold; replacing the two fields of a state by any values leaves its result
unchanged, so no configuration is rejected because of them; and a state with
empty `ssid` and empty `password` is complete with any `addressing` and
`proxy`. -/
theorem isComplete_ignores_addressing_proxy (c d : NetworkConfig)
    (hs : c.ssid = d.ssid) (hp : c.password = d.password) :
    c.isComplete = d.isComplete ∧
    NetworkConfig.isCompleteCall.run c
      = (NetworkConfig.isCompleteCall.run d).map (fun r => (r.1, c)) ∧
    (∀ addressing proxy : JsVal,
      NetworkConfig.isComplete ⟨c.ssid, c.password, addressing, proxy⟩ = d.isComplete) ∧
    (∀ addressing proxy : JsVal,
      NetworkConfig.isComplete ⟨.string "", .string "", addressing, proxy⟩
        = .bool true) := by
  have e : c.isComplete = d.isComplete := by
    unfold NetworkConfig.isComplete
    rw [hs, hp]
  refine ⟨e, ?_, ?_, ?_⟩
  · rw [isCompleteCall_run, isCompleteCall_run, e]
    rfl
  · intro addressing proxy
    rw [← e]
    rfl
  · intro addressing proxy
    rw [isComplete_eq_bool]
    simp [JsVal.IsString]

/-- C11 at `{addressing: addressing}`: the configuration built from static
addressing without an `ssid` has the same result as the one built from `{}`,
and that result is `true`. -/
theorem isComplete_ignores_addressing_proxy_witness :
    NetworkConfig.new sampleStaticAddressing sampleNetworkProxy addressingOnly
      = .ok ⟨.string "", .string "", .object ⟨100, false⟩, .null⟩ ∧
    NetworkConfig.new sampleStaticAddressing sampleNetworkProxy []
      = .ok ⟨.string "", .string "", .null, .null⟩ ∧
    NetworkConfig.isComplete ⟨.string "", .string "", .object ⟨100, false⟩, .null⟩
      = NetworkConfig.isComplete ⟨.string "", .string "", .null, .null⟩ ∧
    NetworkConfig.isComplete ⟨.string "", .string "", .object ⟨100, false⟩, .null⟩
      = .bool true :=
  have h := isComplete_ignores_addressing_proxy
    ⟨.string "", .string "", .object ⟨100, false⟩, .null⟩
    ⟨.string "", .string "", .null, .null⟩ (by decide) (by decide)
  ⟨by decide, by decide, h.1, h.2.2.2 (.object ⟨100, false⟩) .null⟩

end Blinkup
